import Mathlib

/-!
A shallow embedding of the authoritative game engine of the bux-spades
server (server game routes in `src/unnamed/part_000`, plus the client-side
legality helper `getPlayableCards` from
`src/client/src/table-ui/game/GameTable.tsx`), together with theorems that
settle the specification claims about it.

Conventions used throughout the embedding:
* TypeScript `null`/`undefined` is modelled with `Option`.
* JavaScript numbers are modelled with `Int` (scores, bids, raw request
  fields) or `Nat` (array indices) as the source uses them.
* An HTTP/socket handler that mutates the in-memory `Game` is modelled as a
  function `Game → ... → Game × Option String`: the first component is the
  (possibly updated) game state, the second is the emitted error message,
  `none` when no error response was sent.  Error paths in the source return
  before mutating, which the embedding mirrors by returning the input game
  unchanged there.
* The Fisher-Yates `shuffle` is the engine's only randomness; functions that
  consume a shuffled deck take the deck as an explicit argument instead.
-/

/-- Suits, from `const SUITS: Suit[] = ['S', 'H', 'D', 'C']`. -/
inductive Suit
  | S
  | H
  | D
  | C
deriving DecidableEq

/-- Ranks, from `const RANKS = ['2', ..., 'A']`. -/
inductive Rank
  | r2
  | r3
  | r4
  | r5
  | r6
  | r7
  | r8
  | r9
  | r10
  | rJ
  | rQ
  | rK
  | rA
deriving DecidableEq

/-- A card as stored in a hand: `{ suit, rank }`. -/
structure Card where
  suit : Suit
  rank : Rank
deriving DecidableEq

/-- A card in the current trick, tagged with the seat that played it:
the server pushes `{ ...card, playerIndex }`. -/
structure PlayedCard where
  suit : Suit
  rank : Rank
  playerIndex : Nat
deriving DecidableEq

/-- `getCardValue`: the `rankMap` from the server routes (2 low .. Ace 14). -/
def getCardValue : Rank → Nat
  | Rank.r2 => 2
  | Rank.r3 => 3
  | Rank.r4 => 4
  | Rank.r5 => 5
  | Rank.r6 => 6
  | Rank.r7 => 7
  | Rank.r8 => 8
  | Rank.r9 => 9
  | Rank.r10 => 10
  | Rank.rJ => 11
  | Rank.rQ => 12
  | Rank.rK => 13
  | Rank.rA => 14

/-- The loop body of `determineTrickWinner`: `card` replaces the current
`winning` card exactly when
`(card.suit === 'S' && winningCard.suit !== 'S') ||
 (card.suit === winningCard.suit && getCardValue(card.rank) > getCardValue(winningCard.rank))`. -/
def beatsWinning (card winning : PlayedCard) : Bool :=
  (card.suit == Suit.S && !(winning.suit == Suit.S)) ||
    (card.suit == winning.suit &&
      decide (getCardValue winning.rank < getCardValue card.rank))

/-- The `for (const card of trick)` loop of `determineTrickWinner`, started
from `winningCard = trick[0]`. -/
def trickWinnerCard (w : PlayedCard) (l : List PlayedCard) : PlayedCard :=
  l.foldl (fun winning card => if beatsWinning card winning then card else winning) w

/-- `determineTrickWinner` from the server routes.  The source throws on an
empty trick (modelled as `none`); otherwise it folds the replacement rule
over the whole trick starting from `trick[0]` and returns the winning
card's `playerIndex` (the `?? 0` default never fires for trick cards, which
always carry a `playerIndex`). -/
def determineTrickWinner (trick : List PlayedCard) : Option Nat :=
  match trick with
  | [] => none
  | w :: _ => some (trickWinnerCard w trick).playerIndex

/-- `'human' | 'bot'` player type tag. -/
inductive PlayerType
  | human
  | bot
deriving DecidableEq

/-- A seated player or spectator (`GamePlayer`): identity, display name,
avatar, type tag and the optional `position` field the handlers attach. -/
structure Player where
  id : String
  username : String
  avatar : Option String
  type : PlayerType
  position : Option Int
deriving DecidableEq

/-- `Game['status']`. -/
inductive Status
  | WAITING
  | BIDDING
  | PLAYING
  | COMPLETED
deriving DecidableEq

/-- A resolved trick as pushed by the `play_card` handler:
`{ cards: game.play.currentTrick, winnerIndex }`. -/
structure CompletedTrick where
  cards : List PlayedCard
  winnerIndex : Nat
deriving DecidableEq

/-- `game.bidding`: bids are `null` until made (`0` = nil, `-1` = blind
nil); `currentPlayer` is set at hand start and never updated afterwards. -/
structure BiddingState where
  currentPlayer : String
  currentBidderIndex : Nat
  bids : List (Option Int)
deriving DecidableEq

/-- `game.play` as created when bidding completes. -/
structure PlayState where
  currentPlayer : String
  currentPlayerIndex : Nat
  currentTrick : List PlayedCard
  tricks : List CompletedTrick
  trickNumber : Nat
deriving DecidableEq

/-- The mutable `Game` aggregate of the in-memory store, restricted to the
fields the game engine reads or writes (presentation-only configuration —
`gameMode`, `forcedBid`, `specialRules`, `rules`, the creation-time
`completedTricks: []` field which the engine never touches again — is
omitted). -/
structure Game where
  id : String
  status : Status
  players : List (Option Player)
  spectators : List Player
  maxPoints : Int
  minPoints : Int
  buyIn : Int
  isBotGame : Bool
  dealerIndex : Option Nat
  hands : Option (List (List Card))
  bidding : Option BiddingState
  play : Option PlayState
  team1TotalScore : Option Int
  team2TotalScore : Option Int
  team1Bags : Option Int
  team2Bags : Option Int
deriving DecidableEq

/-- JavaScript `Array.prototype.findIndex` (first index satisfying the
predicate); `none` models the `-1` result. -/
def listFindIndex {α : Type} (p : α → Bool) : List α → Option Nat
  | [] => none
  | a :: as => if p a then some 0 else (listFindIndex p as).map (· + 1)

/-- `game.players.findIndex(p => p && p.id === userId)`. -/
def findPlayerIndex (players : List (Option Player)) (userId : String) : Option Nat :=
  listFindIndex (fun p => match p with | some q => q.id == userId | none => false) players

/-- `game.players[i]?.id` (optional chaining on a seat). -/
def seatId (g : Game) (i : Nat) : Option String :=
  (g.players.getD i none).map Player.id

/-- `game.players.some(p => p && p.id === userId)`. -/
def hasPlayerWithId (g : Game) (userId : String) : Bool :=
  g.players.any (fun p => match p with | some q => q.id == userId | none => false)

/-- Error/response messages emitted by the handlers. -/
def msgAlreadyJoined : String := "Player already joined"

def msgUserNotFound : String := "User not found"

def msgNotEnoughCoins : String := "Not enough coins to join this game"

def msgSeatTaken : String := "Seat is already taken"

def msgInvalidSeatSelection : String := "Invalid seat selection"

def msgMissingUserId : String := "Missing user id"

def msgAlreadySpectating : String := "Already spectating"

def msgAlreadyJoinedAsPlayer : String := "Already joined as player"

def msgGameAlreadyStarted : String := "Game already started"

def msgOnlyHostInvite : String := "Only host can invite bots"

def msgInvalidSeat : String := "Invalid seat"

def msgGameNotStarted : String := "Game has not started"

def msgSeatNotEmpty : String := "Seat is not empty"

def msgOnlyPartnerInvite : String := "Only the partner can invite a bot for this seat"

def msgNoDealerAssigned : String := "Invalid game state: no dealer assigned"

def msgInvalidGameState : String := "Invalid game state"

def msgPlayerNotFound : String := "Player not found in game"

def msgNotYourTurn : String := "Not your turn"

def msgInvalidHandState : String := "Invalid hand state"

def msgCardNotInHand : String := "Card not in hand"

def msgInvalidTrickState : String := "Invalid trick state"

/-- `POST /:id/join`: duplicate-join guard, coin-balance precondition (the
`prisma.user.findUnique` lookup is modelled by the `userCoins` argument:
`none` = user not found), then seat validation and seating.  The requested
seat and the profile fields come from the request body. -/
def joinGame (g : Game) (requestedSeat : Option Int) (playerId : String)
    (username avatar : Option String) (userCoins : Option Int) :
    Game × Option String :=
  let player : Player :=
    { id := playerId, username := username.getD "Unknown",
      avatar := some (avatar.getD "/default-pfp.jpg"),
      type := PlayerType.human, position := requestedSeat }
  if hasPlayerWithId g playerId then (g, some msgAlreadyJoined)
  else
    match userCoins with
    | none => (g, some msgUserNotFound)
    | some coins =>
      if coins < g.buyIn then (g, some msgNotEnoughCoins)
      else
        match requestedSeat with
        | some s =>
          if 0 ≤ s ∧ s < 4 then
            if (g.players.getD s.toNat none) ≠ none then (g, some msgSeatTaken)
            else ({ g with players := g.players.set s.toNat (some player) }, none)
          else (g, some msgInvalidSeatSelection)
        | none => (g, some msgInvalidSeatSelection)

/-- `POST /:id/spectate`: duplicate-spectate guard and the guard against
spectating while seated as a player. -/
def spectateGame (g : Game) (userId : Option String)
    (username avatar : Option String) : Game × Option String :=
  match userId with
  | none => (g, some msgMissingUserId)
  | some uid =>
    if g.spectators.any (fun s => s.id == uid) then (g, some msgAlreadySpectating)
    else if hasPlayerWithId g uid then (g, some msgAlreadyJoinedAsPlayer)
    else
      ({ g with spectators :=
          g.spectators ++
            [{ id := uid, username := username.getD "Unknown",
               avatar := some (avatar.getD "/default-pfp.jpg"),
               type := PlayerType.human, position := none }] }, none)

/-- `POST /:id/invite-bot` (pre-game, host only).  The bot's fresh uuid is
modelled by the `freshId` argument. -/
def inviteBot (g : Game) (seatIndex : Int) (requesterId freshId : String) :
    Game × Option String :=
  if g.status ≠ Status.WAITING then (g, some msgGameAlreadyStarted)
  else if seatId g 0 ≠ some requesterId then (g, some msgOnlyHostInvite)
  else if seatIndex < 0 ∨ 3 < seatIndex ∨ (g.players.getD seatIndex.toNat none) ≠ none then
    (g, some msgInvalidSeat)
  else
    let botPlayer : Player :=
      { id := "bot-" ++ freshId, username := "Bot " ++ toString (seatIndex + 1),
        avatar := some "/bot-avatar.jpg", type := PlayerType.bot,
        position := some seatIndex }
    let players' := g.players.set seatIndex.toNat (some botPlayer)
    ({ g with
       players := players',
       isBotGame := players'.any (fun p =>
         match p with | some q => q.type == PlayerType.bot | none => false) }, none)

/-- `POST /:id/invite-bot-midgame` (partner only; the partner seat is
`(seatIndex + 2) % 4`).  Unlike the pre-game route it does not refresh
`isBotGame`. -/
def inviteBotMidgame (g : Game) (seatIndex : Int) (requesterId freshId : String) :
    Game × Option String :=
  if g.status = Status.WAITING then (g, some msgGameNotStarted)
  else if seatIndex < 0 ∨ 3 < seatIndex ∨ (g.players.getD seatIndex.toNat none) ≠ none then
    (g, some msgSeatNotEmpty)
  else
    let partnerSeat := ((seatIndex + 2) % 4).toNat
    if (g.players.getD partnerSeat none) = none ∨ seatId g partnerSeat ≠ some requesterId then
      (g, some msgOnlyPartnerInvite)
    else
      let botPlayer : Player :=
        { id := "bot-" ++ freshId, username := "Bot " ++ toString (seatIndex + 1),
          avatar := some "/bot-avatar.jpg", type := PlayerType.bot,
          position := some seatIndex }
      ({ g with players := g.players.set seatIndex.toNat (some botPlayer) }, none)

/-- `const SUITS: Suit[] = ['S', 'H', 'D', 'C']`. -/
def SUITS : List Suit := [Suit.S, Suit.H, Suit.D, Suit.C]

/-- `const RANKS: Rank[] = ['2', ..., 'A']`. -/
def RANKS : List Rank :=
  [Rank.r2, Rank.r3, Rank.r4, Rank.r5, Rank.r6, Rank.r7, Rank.r8, Rank.r9,
    Rank.r10, Rank.rJ, Rank.rQ, Rank.rK, Rank.rA]

/-- `createDeck`: one card per suit-rank pair, suits outer, ranks inner. -/
def createDeck : List Card :=
  SUITS.flatMap (fun suit => RANKS.map (fun rank => { suit := suit, rank := rank }))

/-- The `for (const card of deck)` loop of `dealCards`: deal one card to
`current`, advance `current` clockwise mod 4. -/
def dealCardsGo : List Card → Nat → List (List Card) → List (List Card)
  | [], _, hands => hands
  | card :: rest, current, hands =>
    dealCardsGo rest ((current + 1) % 4) (hands.set current (hands.getD current [] ++ [card]))

/-- `dealCards(players, dealerIndex)` distributes a shuffled deck
round-robin into 4 hands starting at `(dealerIndex + 1) % 4`.  The shuffle
is the only randomness, so the shuffled deck is taken as an argument. -/
def dealCards (deck : List Card) (dealerIndex : Nat) : List (List Card) :=
  dealCardsGo deck ((dealerIndex + 1) % 4) [[], [], [], []]

/-- The `make_bid` while-loop `next = (playerIndex+1)%4; while (bids[next]
!== null && next !== playerIndex) next = (next+1)%4`, with explicit fuel:
the loop inspects at most 4 seats before reaching `playerIndex` again, so
fuel 4 is exact for the 4-seat bid array the handler maintains. -/
def nextUnbidGo (bids : List (Option Int)) (playerIndex : Nat) : Nat → Nat → Nat
  | 0, next => next
  | fuel + 1, next =>
    if (bids.getD next none) ≠ none ∧ next ≠ playerIndex then
      nextUnbidGo bids playerIndex fuel ((next + 1) % 4)
    else next

/-- The seat the `make_bid` handler advances `currentBidderIndex` to. -/
def nextUnbid (bids : List (Option Int)) (playerIndex : Nat) : Nat :=
  nextUnbidGo bids playerIndex 4 ((playerIndex + 1) % 4)

/-- The `make_bid` socket handler.  Guard failures (`return` without an
`error` emit) leave the game unchanged with no message; note that the
`if (!game.dealerIndex)` truthiness test rejects both an unassigned dealer
and dealer seat `0`, and that it runs only after the bid has already been
recorded in `bids`. -/
def make_bid (g : Game) (userId : String) (bid : Int) : Game × Option String :=
  match g.bidding with
  | none => (g, none)
  | some bidding =>
    match findPlayerIndex g.players userId with
    | none => (g, none)
    | some playerIndex =>
      if playerIndex ≠ bidding.currentBidderIndex then (g, none)
      else if (bidding.bids.getD playerIndex none) ≠ none then (g, none)
      else
        let bids' := bidding.bids.set playerIndex (some bid)
        let next := nextUnbid bids' playerIndex
        if bids'.all (fun b => b != none) then
          match g.dealerIndex with
          | none =>
            ({ g with bidding := some { bidding with bids := bids' } },
              some msgNoDealerAssigned)
          | some 0 =>
            ({ g with bidding := some { bidding with bids := bids' } },
              some msgNoDealerAssigned)
          | some d =>
            match g.players.getD ((d + 1) % 4) none with
            | none =>
              ({ g with bidding := some { bidding with bids := bids' } },
                some msgInvalidGameState)
            | some firstPlayer =>
              ({ g with
                 bidding := some { bidding with bids := bids' },
                 play := some
                   { currentPlayer := firstPlayer.id,
                     currentPlayerIndex := (d + 1) % 4,
                     currentTrick := [],
                     tricks := [],
                     trickNumber := 0 } }, none)
        else
          ({ g with
             bidding := some { bidding with bids := bids', currentBidderIndex := next } },
            none)

/-- The hand-score record returned by `calculatePartnersHandScore`. -/
structure HandSummary where
  team1Score : Int
  team2Score : Int
  team1Bags : Int
  team2Bags : Int
  tricksPerPlayer : List Nat
deriving DecidableEq

/-- `const tricksPerPlayer = [0,0,0,0]; for (trick of tricks)
tricksPerPlayer[trick.winnerIndex]++` (winner indices are seats 0–3, so
the in-range `List.set` is exact). -/
def tricksPerPlayerOf (tricks : List CompletedTrick) : List Nat :=
  tricks.foldl
    (fun acc t => acc.set t.winnerIndex (acc.getD t.winnerIndex 0 + 1))
    [0, 0, 0, 0]

/-- Team 1's bid: `for (i of [0,2]) team1Bid += game.bidding.bids[i] ?? 0`. -/
def team1BidOf (bids : List (Option Int)) : Int :=
  (bids.getD 0 none).getD 0 + (bids.getD 2 none).getD 0

/-- Team 2's bid: seats 1 and 3, `bids[i] ?? 0`. -/
def team2BidOf (bids : List (Option Int)) : Int :=
  (bids.getD 1 none).getD 0 + (bids.getD 3 none).getD 0

/-- One iteration of the nil / blind-nil loop of
`calculatePartnersHandScore` over seat `i`, on the accumulator
`(team1Score, team2Score, team1Bags, team2Bags)`: a `0` bid scores ±100, a
`-1` bid (blind nil) ±200, and the tricks of a failed (blind) nil are
added to the team's bags. -/
def nilAdjust (bids : List (Option Int)) (tpp : List Nat)
    (acc : Int × Int × Int × Int) (i : Nat) : Int × Int × Int × Int :=
  let s1 := acc.1
  let s2 := acc.2.1
  let b1 := acc.2.2.1
  let b2 := acc.2.2.2
  let bid := bids.getD i none
  let tricks : Int := (tpp.getD i 0 : Nat)
  let isTeam1 := i == 0 || i == 2
  if bid = some 0 then
    if tricks = 0 then
      if isTeam1 then (s1 + 100, s2, b1, b2) else (s1, s2 + 100, b1, b2)
    else
      if isTeam1 then (s1 - 100, s2, b1 + tricks, b2)
      else (s1, s2 - 100, b1, b2 + tricks)
  else if bid = some (-1) then
    if tricks = 0 then
      if isTeam1 then (s1 + 200, s2, b1, b2) else (s1, s2 + 200, b1, b2)
    else
      if isTeam1 then (s1 - 200, s2, b1 + tricks, b2)
      else (s1, s2 - 200, b1, b2 + tricks)
  else acc

/-- `calculatePartnersHandScore`, as a pure function of the bid array and
the completed tricks (the source reads both off the `game` after checking
`game.bidding`/`game.play` are present; the `play_card` handler passes them
in directly).  Team 1 is seats 0 and 2, team 2 seats 1 and 3; the nil loop
visits seats in the source order `[...team1, ...team2] = [0,2,1,3]`, and
the final bag penalty fires on the *hand's* bag count. -/
def calculatePartnersHandScore (bids : List (Option Int))
    (tricks : List CompletedTrick) : HandSummary :=
  let tpp := tricksPerPlayerOf tricks
  let team1Bid := team1BidOf bids
  let team2Bid := team2BidOf bids
  let team1Tricks : Int := ((tpp.getD 0 0 + tpp.getD 2 0 : Nat) : Int)
  let team2Tricks : Int := ((tpp.getD 1 0 + tpp.getD 3 0 : Nat) : Int)
  let base1 : Int × Int :=
    if team1Tricks ≥ team1Bid then
      (team1Bid * 10 + (team1Tricks - team1Bid), team1Tricks - team1Bid)
    else (0 - team1Bid * 10, 0)
  let base2 : Int × Int :=
    if team2Tricks ≥ team2Bid then
      (team2Bid * 10 + (team2Tricks - team2Bid), team2Tricks - team2Bid)
    else (0 - team2Bid * 10, 0)
  let adjusted := [0, 2, 1, 3].foldl (nilAdjust bids tpp) (base1.1, base2.1, base1.2, base2.2)
  let s1 := adjusted.1
  let s2 := adjusted.2.1
  let b1 := adjusted.2.2.1
  let b2 := adjusted.2.2.2
  { team1Score := if b1 ≥ 10 then s1 - 100 else s1,
    team2Score := if b2 ≥ 10 then s2 - 100 else s2,
    team1Bags := if b1 ≥ 10 then b1 - 10 else b1,
    team2Bags := if b2 ≥ 10 then b2 - 10 else b2,
    tricksPerPlayer := tpp }

/-- `const winThreshold = 500` — hardcoded in the `play_card` handler. -/
def winThreshold : Int := 500

/-- `const lossThreshold = -150` — hardcoded in the `play_card` handler. -/
def lossThreshold : Int := -150

/-- The 13th-trick tail of the `play_card` handler: score the hand, add the
hand summary onto the cumulative totals and bag counts (`(x || 0) +
delta`), and mark the game `COMPLETED` when a cumulative total crosses one
of the hardcoded thresholds. -/
def finishHand (g : Game) (bids : List (Option Int)) (hands' : List (List Card))
    (play' : PlayState) : Game × Option String :=
  let handSummary := calculatePartnersHandScore bids play'.tricks
  let t1 := g.team1TotalScore.getD 0 + handSummary.team1Score
  let t2 := g.team2TotalScore.getD 0 + handSummary.team2Score
  let b1 := g.team1Bags.getD 0 + handSummary.team1Bags
  let b2 := g.team2Bags.getD 0 + handSummary.team2Bags
  let g' := { g with
    hands := some hands',
    play := some play',
    team1TotalScore := some t1,
    team2TotalScore := some t2,
    team1Bags := some b1,
    team2Bags := some b2 }
  if t1 ≥ winThreshold ∨ t2 ≥ winThreshold ∨ t1 ≤ lossThreshold ∨ t2 ≤ lossThreshold then
    ({ g' with status := Status.COMPLETED }, none)
  else (g', none)

/-- The `play_card` socket handler.  Validation: game phase sub-objects
present, player seated, on turn, card in hand — there is no legality check
against follow-suit or spade-breaking.  On the fourth card the trick is
resolved; the source first sets `currentPlayerIndex = winnerIndex` and
then, for every trick but the 13th, overwrites it with
`(currentPlayerIndex + 1) % 4`, i.e. `(winnerIndex + 1) % 4`. -/
def play_card (g : Game) (userId : String) (card : Card) : Game × Option String :=
  match g.play, g.hands, g.bidding with
  | some play, some hands, some bidding =>
    match findPlayerIndex g.players userId with
    | none => (g, some msgPlayerNotFound)
    | some playerIndex =>
      if playerIndex ≠ play.currentPlayerIndex then (g, some msgNotYourTurn)
      else
        match hands.get? playerIndex with
        | none => (g, some msgInvalidHandState)
        | some hand =>
          match listFindIndex (fun c => c.suit == card.suit && c.rank == card.rank) hand with
          | none => (g, some msgCardNotInHand)
          | some cardIndex =>
            let hand' := hand.eraseIdx cardIndex
            let hands' := hands.set playerIndex hand'
            let trick' := play.currentTrick ++
              [{ suit := card.suit, rank := card.rank, playerIndex := playerIndex }]
            if trick'.length = 4 then
              match determineTrickWinner trick' with
              | none =>
                ({ g with
                   hands := some hands',
                   play := some { play with currentTrick := trick' } },
                  some msgInvalidTrickState)
              | some winnerIndex =>
                let tricks' := play.tricks ++ [{ cards := trick', winnerIndex := winnerIndex }]
                let trickNumber' := play.trickNumber + 1
                if trickNumber' = 13 then
                  finishHand g bidding.bids hands'
                    { play with
                      currentPlayerIndex := winnerIndex,
                      currentTrick := [],
                      tricks := tricks',
                      trickNumber := trickNumber' }
                else
                  ({ g with
                     hands := some hands',
                     play := some
                       { play with
                         currentPlayerIndex := (winnerIndex + 1) % 4,
                         currentTrick := [],
                         tricks := tricks',
                         trickNumber := trickNumber' } }, none)
            else
              ({ g with
                 hands := some hands',
                 play := some
                   { play with
                     currentPlayerIndex := (play.currentPlayerIndex + 1) % 4,
                     currentTrick := trick' } }, none)
  | _, _, _ => (g, some msgInvalidGameState)

/-- A sequence of `play_card` socket events applied in order (the transport
layer delivers them one at a time; a rejected event leaves the game as it
was). -/
def applyPlayRequests (g : Game) (reqs : List (String × Card)) : Game :=
  reqs.foldl (fun gg r => (play_card gg r.1 r.2).1) g

/-- The card count tracked by the conservation invariant: cards still in
hands, plus 4 per completed trick, plus the current trick. -/
def cardCountOf (g : Game) : Nat :=
  (match g.hands with | some hs => (hs.map List.length).sum | none => 0) +
    4 * (match g.play with | some p => p.tricks.length | none => 0) +
    (match g.play with | some p => p.currentTrick.length | none => 0)

/-- The game-creation settings consumed by `POST /` (`req.body`). -/
structure GameSettings where
  creatorId : String
  creatorName : String
  creatorImage : Option String
  maxPoints : Int
  minPoints : Int
  buyIn : Int
deriving DecidableEq

/-- `POST /` (create game): seats the creator at seat 0 and stores the
configured `maxPoints`/`minPoints`/`buyIn` on the new WAITING game.  The
generated uuid is taken as the `gid` argument. -/
def createGame (settings : GameSettings) (gid : String) : Game :=
  let creatorPlayer : Player :=
    { id := settings.creatorId,
      username := settings.creatorName,
      avatar := settings.creatorImage,
      type := PlayerType.human,
      position := none }
  { id := gid,
    status := Status.WAITING,
    players := [some creatorPlayer, none, none, none],
    spectators := [],
    maxPoints := settings.maxPoints,
    minPoints := settings.minPoints,
    buyIn := settings.buyIn,
    isBotGame := false,
    dealerIndex := none,
    hands := none,
    bidding := none,
    play := none,
    team1TotalScore := none,
    team2TotalScore := none,
    team1Bags := none,
    team2Bags := none }

/-- The client game state consumed by the `GameTable` legality helpers:
`completedTricks` (optional-chained in the source) and `currentTrick`. -/
structure ClientGameState where
  completedTricks : Option (List CompletedTrick)
  currentTrick : List Card
deriving DecidableEq

/-- `getLeadSuit(trick)`: `trick[0]?.suit || null`. -/
def getLeadSuit (trick : List Card) : Option Suit :=
  trick.head?.map Card.suit

/-- `hasSpadeBeenPlayed(game)`: some completed trick contains a spade
(`game.completedTricks?.some(...) || false`). -/
def hasSpadeBeenPlayed (game : ClientGameState) : Bool :=
  (game.completedTricks.map (fun ts =>
    ts.any (fun t => t.cards.any (fun c => c.suit == Suit.S)))).getD false

/-- `canLeadSpades(game, hand)`: spades broken, or only spades left. -/
def canLeadSpades (game : ClientGameState) (hand : List Card) : Bool :=
  hasSpadeBeenPlayed game || hand.all (fun c => c.suit == Suit.S)

/-- `getPlayableCards(game, hand, isLeadingTrick)` from `GameTable.tsx`:
when leading with spades unbroken, non-spades only (unless the hand is all
spades); when following, cards of the led suit if any, else the whole
hand. -/
def getPlayableCards (game : ClientGameState) (hand : List Card)
    (isLeadingTrick : Bool) : List Card :=
  if hand.length = 0 then []
  else if isLeadingTrick then
    if !canLeadSpades game hand then
      let nonSpades := hand.filter (fun c => !(c.suit == Suit.S))
      if 0 < nonSpades.length then nonSpades else hand
    else hand
  else
    match getLeadSuit game.currentTrick with
    | none => []
    | some leadSuit =>
      let suitCards := hand.filter (fun c => c.suit == leadSuit)
      if 0 < suitCards.length then suitCards else hand

/-- A human player record as the join/start flow produces it, for the
concrete scenarios below. -/
def humanPlayer (pid : String) : Player :=
  { id := pid, username := pid, avatar := none, type := PlayerType.human,
    position := none }

/-- A mid-hand base game with four seated humans, used by the concrete
scenarios below. -/
def midHandGame : Game :=
  { id := "g",
    status := Status.BIDDING,
    players := [some (humanPlayer "p0"), some (humanPlayer "p1"),
      some (humanPlayer "p2"), some (humanPlayer "p3")],
    spectators := [],
    maxPoints := 500,
    minPoints := -150,
    buyIn := 100000,
    isBotGame := false,
    dealerIndex := some 1,
    hands := none,
    bidding := none,
    play := none,
    team1TotalScore := none,
    team2TotalScore := none,
    team1Bags := none,
    team2Bags := none }

/-- C1 scenario: seat 2 led 4♣, seat 3 played 9♣, seat 0 played K♠; seat 1
is on turn holding only the 2♣. -/
def c1Game : Game :=
  { midHandGame with
    hands := some [[], [⟨Suit.C, Rank.r2⟩], [], []],
    bidding := some
      { currentPlayer := "p0",
        currentBidderIndex := 2,
        bids := [some 3, some 2, some 4, some 4] },
    play := some
      { currentPlayer := "p2",
        currentPlayerIndex := 1,
        currentTrick := [⟨Suit.C, Rank.r4, 2⟩, ⟨Suit.C, Rank.r9, 3⟩,
          ⟨Suit.S, Rank.rK, 0⟩],
        tricks := [],
        trickNumber := 0 } }

/-- C2 scenario: seat 0 led 9♥; seat 1 is on turn holding 5♥ and 2♣, so
only the 5♥ is a legal follow. -/
def c2Game : Game :=
  { midHandGame with
    hands := some [[], [⟨Suit.H, Rank.r5⟩, ⟨Suit.C, Rank.r2⟩], [], []],
    bidding := some
      { currentPlayer := "p0",
        currentBidderIndex := 0,
        bids := [some 3, some 2, some 4, some 4] },
    play := some
      { currentPlayer := "p0",
        currentPlayerIndex := 1,
        currentTrick := [⟨Suit.H, Rank.r9, 0⟩],
        tricks := [],
        trickNumber := 0 } }

/-- The client view of the C2 scenario: no completed trick holds a spade,
and the current trick was led with the 9♥. -/
def c2Client : ClientGameState :=
  { completedTricks := some [], currentTrick := [⟨Suit.H, Rank.r9⟩] }

/-- C2 spade-lead scenario: seat 0 leads the first trick of the hand
holding A♠ and 3♥ — spades are unbroken and the hand has a non-spade. -/
def c2LeadGame : Game :=
  { midHandGame with
    hands := some [[⟨Suit.S, Rank.rA⟩, ⟨Suit.H, Rank.r3⟩], [], [], []],
    bidding := some
      { currentPlayer := "p0",
        currentBidderIndex := 0,
        bids := [some 3, some 2, some 4, some 4] },
    play := some
      { currentPlayer := "p0",
        currentPlayerIndex := 0,
        currentTrick := [],
        tricks := [],
        trickNumber := 0 } }

/-- The client view of the C2 spade-lead scenario. -/
def c2LeadClient : ClientGameState :=
  { completedTricks := some [], currentTrick := [] }

/-- C3 scenario: seat 0 is the dealer (`dealerIndex = 0`), three bids are
in, and seat 3 is about to place the fourth bid. -/
def c3Game : Game :=
  { midHandGame with
    dealerIndex := some 0,
    hands := some [[], [], [], []],
    bidding := some
      { currentPlayer := "p3",
        currentBidderIndex := 3,
        bids := [some 3, some 2, some 4, none] } }

/-- The C3 scenario with a nonzero dealer (seat 1), for contrast. -/
def c3RotGame : Game :=
  { c3Game with dealerIndex := some 1 }

/-- C4 bids: team 1 (seats 0, 2) bids 2 + 3 = 5, team 2 bids 4 + 1 = 5. -/
def c4Bids : List (Option Int) := [some 2, some 4, some 3, some 1]

/-- C4 trick winners: team 1 wins 8 tricks (6 by seat 0, 2 by seat 2),
team 2 wins 5 — three bags for team 1 (only the winner index feeds the
scoring). -/
def c4Tricks : List CompletedTrick :=
  [⟨[], 0⟩, ⟨[], 0⟩, ⟨[], 0⟩, ⟨[], 0⟩, ⟨[], 0⟩, ⟨[], 0⟩, ⟨[], 2⟩, ⟨[], 2⟩,
    ⟨[], 1⟩, ⟨[], 1⟩, ⟨[], 1⟩, ⟨[], 3⟩, ⟨[], 3⟩]

/-- C4 scenario: team 1 enters the hand with 8 cumulative bags and a
cumulative score of 100. -/
def c4Game : Game :=
  { midHandGame with
    team1TotalScore := some 100,
    team2TotalScore := some 0,
    team1Bags := some 8,
    team2Bags := some 0,
    bidding := some
      { currentPlayer := "p0",
        currentBidderIndex := 0,
        bids := c4Bids } }

/-- The play state handed to the scoring tail in the C4 scenario. -/
def c4Play : PlayState :=
  { currentPlayer := "p0", currentPlayerIndex := 0, currentTrick := [],
    tricks := c4Tricks, trickNumber := 13 }

/-- C6 bids: seat 0 bids 5, seat 2 bids blind nil (the `-1` sentinel). -/
def c6Bids : List (Option Int) := [some 5, some 3, some (-1), some 2]

/-- C6 trick winners: seat 0 wins 5, seat 2 wins 0 (its blind nil
succeeds), team 2 wins 8. -/
def c6Tricks : List CompletedTrick :=
  [⟨[], 0⟩, ⟨[], 0⟩, ⟨[], 0⟩, ⟨[], 0⟩, ⟨[], 0⟩, ⟨[], 1⟩, ⟨[], 1⟩, ⟨[], 1⟩,
    ⟨[], 1⟩, ⟨[], 3⟩, ⟨[], 3⟩, ⟨[], 3⟩, ⟨[], 3⟩]

/-- C7 settings: the game is created with a 200-point win threshold and a
−100-point loss threshold. -/
def c7Settings : GameSettings :=
  { creatorId := "p0", creatorName := "p0", creatorImage := none,
    maxPoints := 200, minPoints := -100, buyIn := 100000 }

/-- C7 bids: every seat bids 3. -/
def c7Bids : List (Option Int) := [some 3, some 3, some 3, some 3]

/-- C7 trick winners: team 1 wins 7 tricks, team 2 wins 6. -/
def c7Tricks : List CompletedTrick :=
  [⟨[], 0⟩, ⟨[], 0⟩, ⟨[], 0⟩, ⟨[], 0⟩, ⟨[], 2⟩, ⟨[], 2⟩, ⟨[], 2⟩,
    ⟨[], 1⟩, ⟨[], 1⟩, ⟨[], 1⟩, ⟨[], 3⟩, ⟨[], 3⟩, ⟨[], 3⟩]

/-- C7 scenario: the game created from `c7Settings`, mid-game, with team 1
at 189 cumulative points — the coming hand scores 61 for team 1, crossing
the configured 200-point threshold. -/
def c7Game : Game :=
  { createGame c7Settings "g7" with
    status := Status.BIDDING,
    players := midHandGame.players,
    team1TotalScore := some 189,
    team2TotalScore := some 0,
    bidding := some
      { currentPlayer := "p0",
        currentBidderIndex := 0,
        bids := c7Bids } }

/-- The play state handed to the scoring tail in the C7 scenario. -/
def c7Play : PlayState :=
  { currentPlayer := "p0", currentPlayerIndex := 0, currentTrick := [],
    tricks := c7Tricks, trickNumber := 13 }

/-- C8 pre-game witness: a WAITING game whose host "host" sits at seat 0
and whose seat 1 is empty. -/
def c8Game : Game :=
  { midHandGame with
    status := Status.WAITING,
    players := [some (humanPlayer "host"), none, some (humanPlayer "mate"), none],
    dealerIndex := none }

/-- C8 mid-game witness: a PLAYING game whose seat 0 is empty and whose
partner seat 2 is occupied by "mate". -/
def c8PlayGame : Game :=
  { midHandGame with
    status := Status.PLAYING,
    players := [none, some (humanPlayer "b"), some (humanPlayer "mate"),
      some (humanPlayer "d")] }

/-- C10 witness: a WAITING game with "alice" seated at seat 0. -/
def c10Game : Game :=
  { midHandGame with
    status := Status.WAITING,
    players := [some (humanPlayer "alice"), none, none, none] }

/-- C9 witness: a freshly dealt hand (dealer 0, the unshuffled
`createDeck`) about to play its first trick. -/
def c9Game : Game :=
  { midHandGame with
    dealerIndex := some 0,
    hands := some (dealCards createDeck 0),
    bidding := some
      { currentPlayer := "p1",
        currentBidderIndex := 1,
        bids := [some 3, some 2, some 4, some 4] },
    play := some
      { currentPlayer := "p1",
        currentPlayerIndex := 1,
        currentTrick := [],
        tricks := [],
        trickNumber := 0 } }

/-- The fold result is the seed or one of the folded cards. -/
theorem trickWinnerCard_mem (l : List PlayedCard) :
    ∀ w, trickWinnerCard w l = w ∨ trickWinnerCard w l ∈ l := by
  induction l with
  | nil => intro w; exact Or.inl rfl
  | cons a l ih =>
    intro w
    simp only [trickWinnerCard, List.foldl_cons] at *
    by_cases h : beatsWinning a w
    · simp only [h, if_pos] at *
      rcases ih a with h' | h'
      · exact Or.inr (by simp [h'])
      · exact Or.inr (List.mem_cons_of_mem _ h')
    · simp only [h, if_neg, if_false] at *
      rcases ih w with h' | h'
      · exact Or.inl h'
      · exact Or.inr (List.mem_cons_of_mem _ h')

/-- A spade seed stays a spade: no card ever beats a spade except a higher
spade. -/
theorem trickWinnerCard_spade_seed (l : List PlayedCard) :
    ∀ w, w.suit = Suit.S → (trickWinnerCard w l).suit = Suit.S := by
  induction l with
  | nil => intro w hw; exact hw
  | cons a l ih =>
    intro w hw
    simp only [trickWinnerCard, List.foldl_cons] at *
    by_cases h : beatsWinning a w
    · simp only [h, if_pos]
      have ha : a.suit = Suit.S := by
        simp only [beatsWinning, hw, Bool.or_eq_true, Bool.and_eq_true,
          beq_iff_eq, bne_iff_ne, Bool.not_eq_true', beq_eq_false_iff_ne,
          decide_eq_true_eq] at h
        rcases h with ⟨_, h⟩ | ⟨h, _⟩
        · simp at h
        · exact h
      exact ih a ha
    · simp only [h, if_neg, if_false]
      exact ih w hw

/-- If any folded card is a spade, the fold result is a spade. -/
theorem trickWinnerCard_spade_mem (l : List PlayedCard) :
    ∀ w, (∃ c ∈ l, c.suit = Suit.S) → (trickWinnerCard w l).suit = Suit.S := by
  induction l with
  | nil => intro w h; rcases h with ⟨c, hc, _⟩; simp at hc
  | cons a l ih =>
    intro w h
    simp only [trickWinnerCard, List.foldl_cons] at *
    rcases h with ⟨c, hc, hcS⟩
    rcases List.mem_cons.mp hc with rfl | hcl
    · by_cases hb : beatsWinning c w
      · simp only [hb, if_pos]
        exact trickWinnerCard_spade_seed l c hcS
      · simp only [hb, if_neg, if_false]
        have hwS : w.suit = Suit.S := by
          by_contra hw
          apply hb
          simp only [beatsWinning, Bool.or_eq_true, Bool.and_eq_true,
            beq_iff_eq, Bool.not_eq_true', beq_eq_false_iff_ne]
          exact Or.inl ⟨hcS, hw⟩
        exact trickWinnerCard_spade_seed l w hwS
    · by_cases hb : beatsWinning a w
      · simp only [hb, if_pos]; exact ih a ⟨c, hcl, hcS⟩
      · simp only [hb, if_neg, if_false]; exact ih w ⟨c, hcl, hcS⟩

/-- Unfolding of the replacement test of `determineTrickWinner`. -/
theorem beatsWinning_iff (c w : PlayedCard) :
    beatsWinning c w = true ↔
      ((c.suit = Suit.S ∧ w.suit ≠ Suit.S) ∨
        (c.suit = w.suit ∧ getCardValue w.rank < getCardValue c.rank)) := by
  simp [beatsWinning]

/-- When the fold result is a spade it carries the highest value among the
spades it has seen (seed included). -/
theorem trickWinnerCard_spade_max (l : List PlayedCard) :
    ∀ w, (trickWinnerCard w l).suit = Suit.S →
      ((w.suit = Suit.S →
          getCardValue w.rank ≤ getCardValue (trickWinnerCard w l).rank) ∧
        ∀ c ∈ l, c.suit = Suit.S →
          getCardValue c.rank ≤ getCardValue (trickWinnerCard w l).rank) := by
  induction l with
  | nil => intro w _; exact ⟨fun _ => le_refl _, by simp⟩
  | cons a l ih =>
    intro w hres
    simp only [trickWinnerCard, List.foldl_cons] at *
    by_cases hb : beatsWinning a w
    · simp only [hb, if_pos] at hres ⊢
      have iha := ih a hres
      constructor
      · intro hw
        rcases (beatsWinning_iff a w).mp hb with ⟨_, hwne⟩ | ⟨hsuit, hlt⟩
        · exact absurd hw hwne
        · exact le_trans (le_of_lt hlt) (iha.1 (hsuit.trans hw))
      · intro c hc hcS
        rcases List.mem_cons.mp hc with rfl | hcl
        · exact iha.1 hcS
        · exact iha.2 c hcl hcS
    · simp only [hb, if_neg, if_false] at hres ⊢
      have ihw := ih w hres
      constructor
      · exact ihw.1
      · intro c hc hcS
        rcases List.mem_cons.mp hc with rfl | hcl
        · have hwS : w.suit = Suit.S := by
            by_contra hw
            exact hb ((beatsWinning_iff c w).mpr (Or.inl ⟨hcS, hw⟩))
          have hle : getCardValue c.rank ≤ getCardValue w.rank := by
            by_contra hgt
            exact hb ((beatsWinning_iff c w).mpr
              (Or.inr ⟨hcS.trans hwS.symm, lt_of_not_le hgt⟩))
          exact le_trans hle (ihw.1 hwS)
        · exact ihw.2 c hcl hcS

/-- When no folded card is a spade and the seed is not a spade, the fold
result keeps the seed's suit and carries the highest value among the cards
of that suit (seed included). -/
theorem trickWinnerCard_led (l : List PlayedCard) :
    ∀ w, (∀ c ∈ l, c.suit ≠ Suit.S) → w.suit ≠ Suit.S →
      ((trickWinnerCard w l).suit = w.suit ∧
        getCardValue w.rank ≤ getCardValue (trickWinnerCard w l).rank ∧
        ∀ c ∈ l, c.suit = w.suit →
          getCardValue c.rank ≤ getCardValue (trickWinnerCard w l).rank) := by
  induction l with
  | nil => intro w _ _; exact ⟨rfl, le_refl _, by simp⟩
  | cons a l ih =>
    intro w hnos hw
    have ha : a.suit ≠ Suit.S := hnos a (List.mem_cons_self a l)
    have hnol : ∀ c ∈ l, c.suit ≠ Suit.S := fun c hc => hnos c (List.mem_cons_of_mem _ hc)
    simp only [trickWinnerCard, List.foldl_cons] at *
    by_cases hb : beatsWinning a w
    · simp only [hb, if_pos]
      rcases (beatsWinning_iff a w).mp hb with ⟨haS, _⟩ | ⟨hsuit, hlt⟩
      · exact absurd haS ha
      · have iha := ih a hnol ha
        refine ⟨iha.1.trans hsuit, le_trans (le_of_lt hlt) iha.2.1, ?_⟩
        intro c hc hcsuit
        rcases List.mem_cons.mp hc with rfl | hcl
        · exact iha.2.1
        · exact iha.2.2 c hcl (hcsuit.trans hsuit.symm)
    · simp only [hb, if_neg, if_false]
      have ihw := ih w hnol hw
      refine ⟨ihw.1, ihw.2.1, ?_⟩
      intro c hc hcsuit
      rcases List.mem_cons.mp hc with rfl | hcl
      · have hle : getCardValue c.rank ≤ getCardValue w.rank := by
          by_contra hgt
          exact hb ((beatsWinning_iff c w).mpr (Or.inr ⟨hcsuit, lt_of_not_le hgt⟩))
        exact le_trans hle ihw.2.1
      · exact ihw.2.2 c hcl hcsuit

/-- The rank map of the server is injective (no two ranks share a value). -/
theorem getCardValue_injective :
    ∀ a b : Rank, getCardValue a = getCardValue b → a = b := by
  intro a b h
  cases a <;> cases b <;> first
    | rfl
    | (exfalso; simp only [getCardValue] at h; omega)

/-- Claim C5: for every completed trick of four cards (no duplicate cards),
`determineTrickWinner` resolves to the seat that played the highest-rank
spade if any spade was played, and otherwise to the seat that played the
highest-rank card of the suit led (the suit of the trick's first card),
rank order 2 low through Ace high. -/
theorem c5_trick_winner_correct (trick : List PlayedCard) (c t0 : PlayedCard)
    (hlen : trick.length = 4)
    (h0 : trick.head? = some t0)
    (hdist : ∀ x ∈ trick, ∀ y ∈ trick, x.suit = y.suit → x.rank = y.rank → x = y)
    (hc : c ∈ trick)
    (hmax :
      (c.suit = Suit.S ∧
        ∀ d ∈ trick, d.suit = Suit.S → getCardValue d.rank ≤ getCardValue c.rank) ∨
      ((∀ d ∈ trick, d.suit ≠ Suit.S) ∧ c.suit = t0.suit ∧
        ∀ d ∈ trick, d.suit = t0.suit → getCardValue d.rank ≤ getCardValue c.rank)) :
    determineTrickWinner trick = some c.playerIndex := by
  obtain ⟨w, l, rfl⟩ : ∃ w l, trick = w :: l := by
    cases trick with
    | nil => simp at hlen
    | cons a l => exact ⟨a, l, rfl⟩
  have hw0 : t0 = w := by
    simp only [List.head?_cons, Option.some.injEq] at h0
    exact h0.symm
  rw [hw0] at hmax
  have hmem : trickWinnerCard w (w :: l) ∈ w :: l := by
    rcases trickWinnerCard_mem (w :: l) w with h | h
    · rw [h]; exact List.mem_cons_self _ _
    · exact h
  have hkey : trickWinnerCard w (w :: l) = c := by
    rcases hmax with ⟨hcS, hmaxS⟩ | ⟨hnoS, hcsuit, hmaxled⟩
    · -- a spade was played: the result is the highest spade
      have hresS : (trickWinnerCard w (w :: l)).suit = Suit.S :=
        trickWinnerCard_spade_mem (w :: l) w ⟨c, hc, hcS⟩
      have hmax' := trickWinnerCard_spade_max (w :: l) w hresS
      have hle1 : getCardValue (trickWinnerCard w (w :: l)).rank ≤ getCardValue c.rank :=
        hmaxS _ hmem hresS
      have hle2 : getCardValue c.rank ≤ getCardValue (trickWinnerCard w (w :: l)).rank :=
        hmax'.2 c hc hcS
      have hrank : (trickWinnerCard w (w :: l)).rank = c.rank :=
        getCardValue_injective _ _ (le_antisymm hle1 hle2)
      exact hdist _ hmem c hc (hresS.trans hcS.symm) hrank
    · -- no spade was played: the result is the highest card of the led suit
      have hwns : w.suit ≠ Suit.S := hnoS w (List.mem_cons_self _ _)
      have hled := trickWinnerCard_led (w :: l) w (fun d hd => hnoS d hd) hwns
      have hressuit : (trickWinnerCard w (w :: l)).suit = w.suit := hled.1
      have hle1 : getCardValue (trickWinnerCard w (w :: l)).rank ≤ getCardValue c.rank :=
        hmaxled _ hmem hressuit
      have hle2 : getCardValue c.rank ≤ getCardValue (trickWinnerCard w (w :: l)).rank :=
        hled.2.2 c hc hcsuit
      have hrank : (trickWinnerCard w (w :: l)).rank = c.rank :=
        getCardValue_injective _ _ (le_antisymm hle1 hle2)
      exact hdist _ hmem c hc (hressuit.trans hcsuit.symm) hrank
  simp only [determineTrickWinner, hkey]

/-- Witness for C5 at the two example tricks of the specification:
{4♣ led, 9♣, K♠ (seat 2), 2♣} is won by the K♠, and
{10♦ led, 3♦, J♦ (seat 2), 2♦} is won by the J♦. -/
theorem c5_trick_winner_correct_witness :
    determineTrickWinner
      [⟨Suit.C, Rank.r4, 0⟩, ⟨Suit.C, Rank.r9, 1⟩, ⟨Suit.S, Rank.rK, 2⟩,
        ⟨Suit.C, Rank.r2, 3⟩] = some 2 ∧
    determineTrickWinner
      [⟨Suit.D, Rank.r10, 0⟩, ⟨Suit.D, Rank.r3, 1⟩, ⟨Suit.D, Rank.rJ, 2⟩,
        ⟨Suit.D, Rank.r2, 3⟩] = some 2 := by
  constructor
  · exact c5_trick_winner_correct _ ⟨Suit.S, Rank.rK, 2⟩ ⟨Suit.C, Rank.r4, 0⟩
      (by decide) (by decide) (by decide) (by decide) (Or.inl (by decide))
  · exact c5_trick_winner_correct _ ⟨Suit.D, Rank.rJ, 2⟩ ⟨Suit.D, Rank.r10, 0⟩
      (by decide) (by decide) (by decide) (by decide) (Or.inr (by decide))

/-- Claim C1 (code bug, concrete evaluation): in `c1Game` the 4th card of
the trick is played and the trick resolves with winner seat 0 (the K♠),
but the handler leaves seat 1 on turn for the next trick — the source sets
`currentPlayerIndex = winnerIndex` and then overwrites it with
`(currentPlayerIndex + 1) % 4` for every trick but the 13th, so the winner
does not lead the next trick. -/
theorem c1_trick_winner_does_not_lead_next :
    (play_card c1Game "p1" ⟨Suit.C, Rank.r2⟩).2 = none ∧
    ((play_card c1Game "p1" ⟨Suit.C, Rank.r2⟩).1.play.map PlayState.tricks) =
      some [{ cards := [⟨Suit.C, Rank.r4, 2⟩, ⟨Suit.C, Rank.r9, 3⟩,
        ⟨Suit.S, Rank.rK, 0⟩, ⟨Suit.C, Rank.r2, 1⟩], winnerIndex := 0 }] ∧
    ((play_card c1Game "p1" ⟨Suit.C, Rank.r2⟩).1.play.map PlayState.currentPlayerIndex) =
      some 1 :=
  ⟨rfl, rfl, rfl⟩

/-- Claim C2 (code bug, concrete evaluation): the server's `play_card`
handler accepts any card that is in the on-turn seat's hand — it never
consults the legality rules.  In `c2Game` seat 1 discards the 2♣ while
holding the led suit (hearts) and the play is accepted and applied; in
`c2LeadGame` seat 0 leads the A♠ with spades unbroken while holding a
non-spade, also accepted.  The client-side `getPlayableCards` excludes
both cards, so they are outside `legalPlays`. -/
theorem c2_illegal_play_accepted :
    (play_card c2Game "p1" ⟨Suit.C, Rank.r2⟩).2 = none ∧
    (play_card c2Game "p1" ⟨Suit.C, Rank.r2⟩).1.hands =
      some [[], [⟨Suit.H, Rank.r5⟩], [], []] ∧
    ((play_card c2Game "p1" ⟨Suit.C, Rank.r2⟩).1.play.map PlayState.currentTrick) =
      some [⟨Suit.H, Rank.r9, 0⟩, ⟨Suit.C, Rank.r2, 1⟩] ∧
    (⟨Suit.C, Rank.r2⟩ : Card) ∉
      getPlayableCards c2Client [⟨Suit.H, Rank.r5⟩, ⟨Suit.C, Rank.r2⟩] false ∧
    (play_card c2LeadGame "p0" ⟨Suit.S, Rank.rA⟩).2 = none ∧
    ((play_card c2LeadGame "p0" ⟨Suit.S, Rank.rA⟩).1.play.map PlayState.currentTrick) =
      some [⟨Suit.S, Rank.rA, 0⟩] ∧
    (⟨Suit.S, Rank.rA⟩ : Card) ∉
      getPlayableCards c2LeadClient [⟨Suit.S, Rank.rA⟩, ⟨Suit.H, Rank.r3⟩] true :=
  ⟨rfl, rfl, rfl, by decide, rfl, rfl, by decide⟩

/-- Claim C3 (code bug, concrete evaluation): with `dealerIndex = 0`, the
fourth bid is recorded (all four bids become non-null) but the handler
emits `Invalid game state: no dealer assigned` — `if (!game.dealerIndex)`
treats dealer seat 0 as missing — and never creates the play state, so the
hand-off to trick play with leader `(0+1) % 4 = 1` never happens.  With
dealer seat 1 the same bid correctly starts play with leader 2. -/
theorem c3_dealer_zero_stalls_bidding :
    make_bid c3Game "p3" 4 =
      ({ c3Game with
         bidding := some
           { currentPlayer := "p3",
             currentBidderIndex := 3,
             bids := [some 3, some 2, some 4, some 4] } },
        some msgNoDealerAssigned) ∧
    (make_bid c3Game "p3" 4).1.play = none ∧
    ((make_bid c3RotGame "p3" 4).1.play.map PlayState.currentPlayerIndex) = some 2 ∧
    (make_bid c3RotGame "p3" 4).2 = none :=
  ⟨rfl, rfl, rfl, rfl⟩

/-- Claim C4 (code bug, concrete evaluation): the −100 bag penalty is
applied inside `calculatePartnersHandScore` on the *hand's* bag count
only; the cumulative bag counter is updated by plain addition with no
penalty check.  Team 1 enters the hand with 8 cumulative bags (score 100),
takes 3 bags in the hand (hand score 53), and finishes with 11 cumulative
bags and a cumulative score of 153: no −100 was applied and the bags were
not reduced to 1. -/
theorem c4_bag_penalty_not_cumulative :
    (calculatePartnersHandScore c4Bids c4Tricks).team1Bags = 3 ∧
    (calculatePartnersHandScore c4Bids c4Tricks).team1Score = 53 ∧
    c4Game.team1Bags = some 8 ∧
    c4Game.team1TotalScore = some 100 ∧
    (finishHand c4Game c4Bids [[], [], [], []] c4Play).1.team1Bags = some 11 ∧
    (finishHand c4Game c4Bids [[], [], [], []] c4Play).1.team1TotalScore = some 153 :=
  ⟨rfl, rfl, rfl, rfl, rfl, rfl⟩

/-- Claim C6 (code bug, concrete evaluation): the team bid is the raw sum
`(bids[0] ?? 0) + (bids[2] ?? 0)`, so the blind-nil sentinel `-1`
contributes −1 — not 0 — to the team bid target.  With seat 0 bidding 5
and seat 2 bidding blind nil, the team bid is 4, and with 5 tricks taken
the hand scores 4×10 + 1 bag + 200 (successful blind nil) = 241 with 1
bag, instead of the 5×10 + 200 = 250 with 0 bags that a 0-contribution
blind nil would give. -/
theorem c6_blind_nil_contributes_minus_one :
    team1BidOf c6Bids = 4 ∧
    team1BidOf c6Bids ≠ 5 ∧
    (calculatePartnersHandScore c6Bids c6Tricks).team1Score = 241 ∧
    (calculatePartnersHandScore c6Bids c6Tricks).team1Bags = 1 :=
  ⟨rfl, by decide, rfl, rfl⟩

/-- Claim C7 (code bug, concrete evaluation): the completion check uses
the hardcoded `winThreshold = 500` / `lossThreshold = -150`, not the
`maxPoints`/`minPoints` stored on the game at creation.  `c7Game` was
created with `maxPoints = 200`; after the hand its team 1 total is 250,
past the configured threshold, yet the game is not COMPLETED. -/
theorem c7_completion_ignores_configured_thresholds :
    (createGame c7Settings "g7").maxPoints = 200 ∧
    c7Game.maxPoints = 200 ∧
    winThreshold = 500 ∧
    (finishHand c7Game c7Bids [[], [], [], []] c7Play).1.team1TotalScore = some 250 ∧
    (finishHand c7Game c7Bids [[], [], [], []] c7Play).1.team2TotalScore = some 60 ∧
    (finishHand c7Game c7Bids [[], [], [], []] c7Play).1.status = Status.BIDDING :=
  ⟨rfl, rfl, rfl, rfl, rfl, rfl⟩

/-- An occupied-by-`req` seat is in particular occupied. -/
theorem seatId_some_imp_occupied {g : Game} {i : Nat} {req : String}
    (h : seatId g i = some req) : g.players.getD i none ≠ none := by
  intro hnone
  simp only [seatId, hnone, Option.map_none'] at h
  exact Option.noConfusion h

/-- Claim C8: bot seating is permission-gated.  Pre-game (WAITING) the
`invite-bot` route succeeds exactly when the requester occupies seat 0 and
the target seat is empty — any other requester gets the permission error —
and the mid-game route always refuses.  Mid-game (PLAYING) the
`invite-bot-midgame` route succeeds exactly when the requester occupies the
partner seat `(position+2) % 4` and the target seat is empty — with an
empty target, any other requester gets the permission error — and the
pre-game route always refuses.  Every refusal leaves the game (hence the
seat array) unchanged. -/
theorem c8_bot_seating_permissions (g : Game) (pos : Nat) (req fresh : String)
    (hpos : pos < 4) :
    (g.status = Status.WAITING →
      ((inviteBot g (pos : Int) req fresh).2 = none ↔
        (seatId g 0 = some req ∧ g.players.getD pos none = none)) ∧
      (seatId g 0 ≠ some req →
        inviteBot g (pos : Int) req fresh = (g, some msgOnlyHostInvite)) ∧
      ((inviteBot g (pos : Int) req fresh).2 ≠ none →
        (inviteBot g (pos : Int) req fresh).1 = g) ∧
      inviteBotMidgame g (pos : Int) req fresh = (g, some msgGameNotStarted)) ∧
    (g.status = Status.PLAYING →
      ((inviteBotMidgame g (pos : Int) req fresh).2 = none ↔
        (seatId g ((pos + 2) % 4) = some req ∧ g.players.getD pos none = none)) ∧
      (g.players.getD pos none = none → seatId g ((pos + 2) % 4) ≠ some req →
        inviteBotMidgame g (pos : Int) req fresh = (g, some msgOnlyPartnerInvite)) ∧
      ((inviteBotMidgame g (pos : Int) req fresh).2 ≠ none →
        (inviteBotMidgame g (pos : Int) req fresh).1 = g) ∧
      inviteBot g (pos : Int) req fresh = (g, some msgGameAlreadyStarted)) := by
  have hn0 : ¬((pos : Int) < 0) := by omega
  have hn3 : ¬((3 : Int) < (pos : Int)) := by omega
  have htn : ((pos : Int)).toNat = pos := by omega
  have hpart : (((pos : Int) + 2) % 4).toNat = (pos + 2) % 4 := by omega
  constructor
  · intro hW
    have hne : ¬(g.status ≠ Status.WAITING) := by simp [hW]
    have hmid : g.status = Status.WAITING := hW
    refine ⟨?_, ?_, ?_, ?_⟩
    · simp only [inviteBot, if_neg hne, htn]
      by_cases hhost : seatId g 0 = some req
      · rw [if_neg (fun hc => hc hhost)]
        by_cases hocc : g.players.getD pos none = none
        · rw [if_neg (by
            intro hc
            rcases hc with hc | hc | hc
            · exact hn0 hc
            · exact hn3 hc
            · exact hc hocc)]
          exact iff_of_true rfl ⟨hhost, hocc⟩
        · rw [if_pos (Or.inr (Or.inr hocc))]
          exact iff_of_false (by simp) (fun h => hocc h.2)
      · rw [if_pos hhost]
        exact iff_of_false (by simp) (fun h => hhost h.1)
    · intro hhost
      simp only [inviteBot, if_neg hne]
      rw [if_pos hhost]
    · intro herr
      simp only [inviteBot, if_neg hne, htn] at herr ⊢
      by_cases hhost : seatId g 0 ≠ some req
      · rw [if_pos hhost]
      · rw [if_neg hhost] at herr ⊢
        by_cases hseat : (pos : Int) < 0 ∨ (3 : Int) < (pos : Int) ∨
            g.players.getD pos none ≠ none
        · rw [if_pos hseat]
        · rw [if_neg hseat] at herr; simp at herr
    · simp only [inviteBotMidgame, if_pos hmid]
  · intro hP
    have hne : g.status ≠ Status.WAITING := by rw [hP]; intro h; cases h
    have hnmid : ¬(g.status = Status.WAITING) := hne
    refine ⟨?_, ?_, ?_, ?_⟩
    · simp only [inviteBotMidgame, if_neg hnmid, htn, hpart]
      by_cases hocc : g.players.getD pos none = none
      · rw [if_neg (by
          intro hc
          rcases hc with hc | hc | hc
          · exact hn0 hc
          · exact hn3 hc
          · exact hc hocc)]
        by_cases hpartner : seatId g ((pos + 2) % 4) = some req
        · rw [if_neg (by
            intro hc
            rcases hc with hc | hc
            · exact seatId_some_imp_occupied hpartner hc
            · exact hc hpartner)]
          exact iff_of_true rfl ⟨hpartner, hocc⟩
        · rw [if_pos (Or.inr hpartner)]
          exact iff_of_false (by simp) (fun h => hpartner h.1)
      · rw [if_pos (Or.inr (Or.inr hocc))]
        exact iff_of_false (by simp) (fun h => hocc h.2)
    · intro hocc hpartner
      simp only [inviteBotMidgame, if_neg hnmid, htn, hpart]
      rw [if_neg (by
        intro hc
        rcases hc with hc | hc | hc
        · exact hn0 hc
        · exact hn3 hc
        · exact hc hocc)]
      rw [if_pos (Or.inr hpartner)]
    · intro herr
      simp only [inviteBotMidgame, if_neg hnmid, htn, hpart] at herr ⊢
      by_cases hseat : (pos : Int) < 0 ∨ (3 : Int) < (pos : Int) ∨
          g.players.getD pos none ≠ none
      · rw [if_pos hseat]
      · rw [if_neg hseat] at herr ⊢
        by_cases hpartner : g.players.getD ((pos + 2) % 4) none = none ∨
            seatId g ((pos + 2) % 4) ≠ some req
        · rw [if_pos hpartner]
        · rw [if_neg hpartner] at herr; simp at herr
    · simp only [inviteBot, if_pos hne]

/-- Witness for C8: in the WAITING game the host's invite to empty seat 1
succeeds while the mid-game route refuses; in the PLAYING game the
partner's invite to empty seat 0 succeeds while the pre-game route
refuses. -/
theorem c8_bot_seating_permissions_witness :
    (inviteBot c8Game (1 : Int) "host" "u1").2 = none ∧
    inviteBotMidgame c8Game (1 : Int) "host" "u1" = (c8Game, some msgGameNotStarted) ∧
    (inviteBotMidgame c8PlayGame (0 : Int) "mate" "u2").2 = none ∧
    inviteBot c8PlayGame (0 : Int) "mate" "u2" = (c8PlayGame, some msgGameAlreadyStarted) := by
  have h1 := c8_bot_seating_permissions c8Game 1 "host" "u1" (by decide)
  have h2 := c8_bot_seating_permissions c8PlayGame 0 "mate" "u2" (by decide)
  exact ⟨(h1.1 rfl).1.mpr (by decide), (h1.1 rfl).2.2.2,
    (h2.2 rfl).1.mpr (by decide), (h2.2 rfl).2.2.2⟩

/-- Claim C10: a user identity never occupies two seats — a join request
by a user id that already occupies a seat is rejected with the
duplicate-join error before any seating happens, leaving the game (hence
the players array) unchanged, and a seated player is likewise rejected
from spectating with the game unchanged. -/
theorem c10_no_double_seat (g : Game) (pid : String) (q : Player) (i : Nat)
    (hq : g.players.getD i none = some q) (hid : q.id = pid)
    (requestedSeat : Option Int) (username avatar : Option String)
    (userCoins : Option Int) :
    joinGame g requestedSeat pid username avatar userCoins = (g, some msgAlreadyJoined) ∧
    (spectateGame g (some pid) username avatar).1 = g ∧
    (spectateGame g (some pid) username avatar).2.isSome = true := by
  have hmem : some q ∈ g.players := by
    rw [List.getD_eq_getElem?_getD] at hq
    cases hx : g.players[i]? with
    | none => rw [hx] at hq; exact absurd hq (by simp)
    | some x =>
      rw [hx] at hq
      simp only [Option.getD_some] at hq
      rw [← hq]
      exact List.getElem?_mem hx
  have hany : hasPlayerWithId g pid = true := by
    rw [hasPlayerWithId, List.any_eq_true]
    exact ⟨some q, hmem, by simp [hid]⟩
  have hspec : (spectateGame g (some pid) username avatar).1 = g ∧
      (spectateGame g (some pid) username avatar).2.isSome = true := by
    by_cases hs : g.spectators.any (fun s => s.id == pid)
    · constructor <;> simp [spectateGame, hs]
    · constructor <;> simp [spectateGame, hs, hany]
  exact ⟨by simp [joinGame, hany], hspec.1, hspec.2⟩

/-- Witness for C10: "alice" occupies seat 0 of `c10Game`; her join request
for seat 1 and her spectate request are both rejected with the game
unchanged. -/
theorem c10_no_double_seat_witness :
    joinGame c10Game (some 1) "alice" none none (some 1000000) =
      (c10Game, some msgAlreadyJoined) ∧
    (spectateGame c10Game (some "alice") none none).1 = c10Game ∧
    (spectateGame c10Game (some "alice") none none).2.isSome = true :=
  c10_no_double_seat c10Game "alice" (humanPlayer "alice") 0 (by rfl) rfl
    (some 1) none none (some 1000000)

/-- A found index is within bounds (JS `findIndex` returns a valid index
when it does not return `-1`). -/
theorem listFindIndex_lt_length {α : Type} (p : α → Bool) (l : List α) (i : Nat)
    (h : listFindIndex p l = some i) : i < l.length := by
  induction l generalizing i with
  | nil => simp [listFindIndex] at h
  | cons a as ih =>
    by_cases hp : p a
    · simp only [listFindIndex, hp, if_pos, Option.some.injEq] at h
      simp [← h]
    · simp only [listFindIndex, hp, if_neg] at h
      cases hfi : listFindIndex p as with
      | none => rw [hfi] at h; exact absurd h (by simp)
      | some j =>
        rw [hfi] at h
        simp at h
        have := ih j hfi
        simp only [List.length_cons]
        omega

/-- Replacing entry `i` of a list of lists changes the total length by the
difference between the new and old entry. -/
theorem sum_map_length_set {α : Type} (l : List (List α)) (i : Nat) (x : List α)
    (hi : i < l.length) :
    ((l.set i x).map List.length).sum + (l.getD i []).length =
      (l.map List.length).sum + x.length := by
  induction l generalizing i with
  | nil => simp at hi
  | cons a as ih =>
    cases i with
    | zero => simp [List.set]; omega
    | succ n =>
      simp only [List.set, List.map_cons, List.sum_cons, List.getD_cons_succ]
      have := ih n (by simpa using hi)
      omega

/-- The round-robin dealing loop hands out every remaining card: the total
number of dealt cards grows by exactly the deck size. -/
theorem dealCardsGo_sum (deck : List Card) :
    ∀ current hands, current < 4 → hands.length = 4 →
      ((dealCardsGo deck current hands).map List.length).sum =
        (hands.map List.length).sum + deck.length := by
  induction deck with
  | nil => intro current hands _ _; simp [dealCardsGo]
  | cons card rest ih =>
    intro current hands hcur hlen
    simp only [dealCardsGo]
    have hcur' : (current + 1) % 4 < 4 := Nat.mod_lt _ (by norm_num)
    have hlt : current < hands.length := by omega
    have hlen' : (hands.set current (hands.getD current [] ++ [card])).length = 4 := by
      simp [hlen]
    rw [ih _ _ hcur' hlen']
    have hset := sum_map_length_set hands current (hands.getD current [] ++ [card]) hlt
    simp only [List.length_append, List.length_cons, List.length_nil] at hset
    simp only [List.length_cons]
    omega

/-- `dealCards` distributes the whole deck: the four hands hold exactly
`deck.length` cards in total. -/
theorem dealCards_sum (deck : List Card) (dealerIndex : Nat) :
    ((dealCards deck dealerIndex).map List.length).sum = deck.length := by
  unfold dealCards
  rw [dealCardsGo_sum deck _ [[], [], [], []] (Nat.mod_lt _ (by norm_num)) rfl]
  simp

/-- Every branch of the `play_card` handler conserves the card count:
rejected requests change nothing, an accepted play moves one card from a
hand into the current trick, and trick resolution moves the four current
cards into a completed trick. -/
theorem play_card_preserves_cardCount (g : Game) (u : String) (c : Card) :
    cardCountOf (play_card g u c).1 = cardCountOf g := by
  unfold play_card
  split
  case _ play hands bidding hplay hhands hbidding =>
    split
    · rfl
    case _ playerIndex hfind =>
      split
      · rfl
      case _ hturn =>
        split
        · rfl
        case _ hand hget =>
          split
          · rfl
          case _ cardIndex hcard =>
            dsimp only
            have hpi : playerIndex < hands.length := by
              rcases List.get?_eq_some.mp hget with ⟨hlt, _⟩
              exact hlt
            have hgd : hands.getD playerIndex [] = hand := by
              rw [List.getD_eq_getElem?_getD, ← List.get?_eq_getElem?, hget,
                Option.getD_some]
            have hci : cardIndex < hand.length := listFindIndex_lt_length _ _ _ hcard
            have hsum := sum_map_length_set hands playerIndex (hand.eraseIdx cardIndex) hpi
            rw [hgd, List.length_eraseIdx_of_lt hci] at hsum
            split
            case _ h4 =>
              simp only [List.length_append, List.length_cons, List.length_nil] at h4
              split
              · -- unreachable `Invalid trick state` arm: hand and trick mutated
                simp only [cardCountOf, hplay, hhands]
                simp only [List.length_append, List.length_cons, List.length_nil]
                omega
              case _ winnerIndex hwin =>
                split
                · -- 13th trick: `finishHand` tail
                  unfold finishHand
                  dsimp only
                  split <;>
                    (simp only [cardCountOf, hplay, hhands, List.length_append,
                      List.length_cons, List.length_nil]
                     omega)
                · -- tricks 1–12
                  simp only [cardCountOf, hplay, hhands, List.length_append,
                    List.length_cons, List.length_nil]
                  omega
            case _ h4 =>
              simp only [cardCountOf, hplay, hhands]
              simp only [List.length_append, List.length_cons, List.length_nil]
              omega
  · rfl

/-- Claim C9: card conservation.  A 52-card deal starts the hand with
`sum(hand sizes) + 4·completedTricks + currentTrick = 52`, and the count
is still 52 after any sequence of `play_card` requests is processed (each
accepted play moves one card from a hand to the trick, each resolution
moves four trick cards into the history, and each rejected request leaves
the game unchanged), so the invariant holds after every accepted operation
from the deal to hand completion. -/
theorem c9_card_conservation (deck : List Card) (dealerIndex : Nat) (g : Game)
    (cp : String) (cpi : Nat) (reqs : List (String × Card))
    (hdeck : deck.length = 52)
    (hhands : g.hands = some (dealCards deck dealerIndex))
    (hplay : g.play = some
      { currentPlayer := cp,
        currentPlayerIndex := cpi,
        currentTrick := [],
        tricks := [],
        trickNumber := 0 }) :
    cardCountOf g = 52 ∧ cardCountOf (applyPlayRequests g reqs) = 52 := by
  have h0 : cardCountOf g = 52 := by
    simp only [cardCountOf, hhands, hplay]
    rw [dealCards_sum]
    simp [hdeck]
  refine ⟨h0, ?_⟩
  have hstep : ∀ rs (gg : Game), cardCountOf gg = 52 →
      cardCountOf (applyPlayRequests gg rs) = 52 := by
    intro rs
    induction rs with
    | nil => intro gg h; exact h
    | cons r rs ih =>
      intro gg h
      simp only [applyPlayRequests, List.foldl_cons] at *
      exact ih ((play_card gg r.1 r.2).1)
        ((play_card_preserves_cardCount gg r.1 r.2).trans h)
  exact hstep reqs g h0

/-- Witness for C9: the concrete fresh deal holds 52 cards, and still
counts 52 after seat 1 plays the 2♠ it was dealt. -/
theorem c9_card_conservation_witness :
    cardCountOf c9Game = 52 ∧
    cardCountOf (applyPlayRequests c9Game [("p1", ⟨Suit.S, Rank.r2⟩)]) = 52 :=
  c9_card_conservation createDeck 0 c9Game "p1" 1 [("p1", ⟨Suit.S, Rank.r2⟩)]
    (by decide) rfl rfl
